import Mathlib

/-!
Shallow embedding of `src/ibm/resource_ibm_pi_ipsec_policy.go`, the
Terraform managed-resource adapter for IBM Power Instance IPSec policies.

The adapter translates a declarative resource description into four
lifecycle calls (create, read, update, delete) against a remote VPN-policy
client, keeps the local state synchronized with the remote response, and
handles the composite identifier `cloudInstanceID/policyID`.

Remote calls are modelled by an oracle (`Remote`) mapping each request to
an `Except`-style response; each entry point also records the trace of
remote calls it performed, so call-count and request-content properties
can be stated.
-/

set_option autoImplicit false

namespace IPSec

/-- The six configurable attributes of the resource, as read by `d.Get`.
Go `TypeInt` values are modelled as `Int`; the Go `int -> int64` widening
is value-preserving, so both sides are the same `Int` here. -/
structure PolicyConfig where
  name : String
  dhGroup : Int
  encryption : String
  keyLifetime : Int
  pfs : Bool
  authentication : String
  deriving DecidableEq

/-- The host framework's `*schema.ResourceData`: the stored identifier
(`d.Id()`), the cloud instance id attribute, the current configuration
values (`d.Get`), the prior-state values (the "old" side of
`d.HasChange`), and the computed policy-id attribute. -/
structure ResourceData where
  rid : String
  cloudInstanceID : String
  conf : PolicyConfig
  oldConf : PolicyConfig
  policyID : String
  deriving DecidableEq

/-- `models.IPSecPolicyCreate`: the create request body. Fields are listed
in the order of the Go struct literal at lines 103-109; `authentication`
is the Go zero value `""` unless `d.GetOk` reports the attribute set. -/
structure IPSecPolicyCreate where
  dhGroup : Int
  encryption : String
  keyLifetime : Int
  name : String
  pfs : Bool
  authentication : String
  deriving DecidableEq

/-- `models.IPSecPolicyUpdate`: the update request body; every field starts
at its Go zero value (`""`, `0`, `nil`) and is only assigned under a
`d.HasChange` guard. -/
structure IPSecPolicyUpdate where
  name : String
  dhGroup : Int
  encryption : String
  keyLifetime : Int
  pfs : Option Bool
  authentication : String
  deriving DecidableEq

/-- The zero value of `models.IPSecPolicyUpdate`. -/
def emptyIPSecPolicyUpdate : IPSecPolicyUpdate :=
  ⟨"", 0, "", 0, Option.none, ""⟩

/-- `models.IPSecPolicy`: the remote response; pointer fields are modelled
by their dereferenced values. -/
structure IPSecPolicy where
  id : String
  name : String
  dhGroup : Int
  encryption : String
  keyLifetime : Int
  pfs : Bool
  authentication : String
  deriving DecidableEq

/-- One diagnostic: either `diag.FromErr err` or
`diag.Errorf fmtConstant args...` with every argument rendered as a
string (errors are modelled as strings). -/
inductive Diagnostic where
  | fromErr (err : String)
  | errorf (fmt : String) (args : List String)
  deriving DecidableEq

/-- `diag.Diagnostics`: the empty list is the success value `nil`. -/
abbrev Diagnostics := List Diagnostic

/-- Whether a diagnostic wraps the given underlying error string. -/
def Diagnostic.wrapsErr : Diagnostic → String → Prop
  | .fromErr e, err => e = err
  | .errorf _ args, err => err ∈ args

instance (dg : Diagnostic) (err : String) : Decidable (dg.wrapsErr err) := by
  cases dg with
  | fromErr e => exact inferInstanceAs (Decidable (e = err))
  | errorf f args => exact inferInstanceAs (Decidable (err ∈ args))

/-- One request/response exchange against the remote VPN-policy client,
carrying the request data actually sent. -/
inductive ApiCall where
  | createCall (body : IPSecPolicyCreate) (cloudInstanceID : String)
  | getCall (policyID : String) (cloudInstanceID : String)
  | updateCall (body : IPSecPolicyUpdate) (policyID : String) (cloudInstanceID : String)
  | deleteCall (policyID : String) (cloudInstanceID : String)
  deriving DecidableEq

/-- The remote VPN-policy client's four operations, as a response oracle:
the adapter is parametric in what the remote API answers. -/
structure Remote where
  create : IPSecPolicyCreate → String → Except String IPSecPolicy
  get : String → String → Except String IPSecPolicy
  update : IPSecPolicyUpdate → String → String → Except String IPSecPolicy
  delete : String → String → Except String Unit

/-- The provider metadata (`meta`): `IBMPISession()` either yields a usable
session or an error. -/
structure ProviderMeta where
  ibmPISession : Except String Unit

/-- The outcome of one lifecycle entry point: the returned diagnostics,
the resulting resource data, and the trace of remote exchanges performed. -/
structure RunResult where
  diags : Diagnostics
  d : ResourceData
  trace : List ApiCall
  deriving DecidableEq

/-! ### Identifier parsing (`idParts`)

`idParts` lives elsewhere in the provider package, outside `src/`. -/

/-- Go's `strings.Split` on `'/'`, on character lists: `splitSlash` with an
accumulator of the characters of the current field, reversed. -/
def splitSlashAux : List Char → List Char → List (List Char)
  | [], acc => [acc.reverse]
  | c :: rest, acc =>
    if c = '/' then acc.reverse :: splitSlashAux rest []
    else splitSlashAux rest (c :: acc)

/-- Go's `strings.Split(id, "/")`. -/
def splitSlash (s : String) : List String :=
  (splitSlashAux s.data []).map List.asString

/-- Modelled from the spec: the provider's `idParts` helper ("ID parsing"
glue, not under `src/`) decomposes the composite identifier
`cloudInstanceID/policyID` by splitting the stored id on `/`, failing when
the id contains no `/` at all. -/
def idParts (id : String) : Except String (List String) :=
  let parts := splitSlash id
  if 2 ≤ parts.length then Except.ok parts
  else Except.error ("The given id " ++ id ++ " does not contain / please check documentation on how to provide id during import command")

/-! ### Schema and validation helpers -/

/-- Modelled from the spec: the provider's schema validation helper
`validateAllowedIntValue` (not under `src/`) accepts exactly the listed
integer values. -/
def validateAllowedIntValue (allowed : List Int) (v : Int) : Bool :=
  allowed.contains v

/-- Modelled from the spec: the provider's schema validation helper
`validateAllowedStringValue` (not under `src/`) accepts exactly the listed
strings. -/
def validateAllowedStringValue (allowed : List String) (v : String) : Bool :=
  allowed.contains v

/-- Modelled from the spec: the provider's schema validation helper
`validateAllowedRangeInt` (not under `src/`) accepts exactly the integers
of the inclusive range. -/
def validateAllowedRangeInt (lo hi : Int) (v : Int) : Bool :=
  decide (lo ≤ v) && decide (v ≤ hi)

/-- A schema attribute value (`TypeString` / `TypeInt` / `TypeBool`). -/
inductive AttrVal where
  | str (s : String)
  | int (n : Int)
  | bool (b : Bool)
  deriving DecidableEq

/-- One entry of the resource schema: requiredness, optionality,
computedness, the default value if any, and the validation function
(`ValidateFunc`; attributes without one accept every value of their type). -/
structure SchemaAttr where
  required : Bool
  optional : Bool
  computed : Bool
  defaultVal : Option AttrVal
  validate : AttrVal → Bool

/-! Attribute keys: the literal key strings live in the vendor `helpers`
package outside `src/`; only their identity matters here. -/

def PICloudInstanceId : String := "pi_cloud_instance_id"
def PIVPNPolicyName : String := "pi_policy_name"
def PIVPNPolicyDhGroup : String := "pi_policy_dh_group"
def PIVPNPolicyEncryption : String := "pi_policy_encryption"
def PIVPNPolicyKeyLifetime : String := "pi_policy_key_lifetime"
def PIVPNPolicyPFS : String := "pi_policy_pfs"
def PIVPNPolicyAuthentication : String := "pi_policy_authentication"
def PIPolicyId : String := "policy_id"

/-- The allowed DH groups (line 50). -/
def allowedDhGroups : List Int := [1, 2, 5, 14, 19, 20, 24]

/-- The allowed encryption ciphers (line 56). -/
def allowedEncryptions : List String :=
  ["3des-cbc", "aes-128-cbc", "aes-128-gcm", "aes-192-cbc", "aes-256-cbc", "aes-256-gcm", "des-cbc"]

/-- The allowed authentication values (line 76). -/
def allowedAuthentications : List String :=
  ["hmac-md5-96", "hmac-sha-256-128", "hmac-sha1-96", "none"]

def cloudInstanceIdAttr : SchemaAttr :=
  ⟨true, false, false, Option.none, fun v => match v with | .str _ => true | _ => false⟩

def policyNameAttr : SchemaAttr :=
  ⟨true, false, false, Option.none, fun v => match v with | .str _ => true | _ => false⟩

def dhGroupAttr : SchemaAttr :=
  ⟨true, false, false, Option.none,
    fun v => match v with | .int n => validateAllowedIntValue allowedDhGroups n | _ => false⟩

def encryptionAttr : SchemaAttr :=
  ⟨true, false, false, Option.none,
    fun v => match v with | .str s => validateAllowedStringValue allowedEncryptions s | _ => false⟩

def keyLifetimeAttr : SchemaAttr :=
  ⟨true, false, false, Option.none,
    fun v => match v with | .int n => validateAllowedRangeInt 180 86400 n | _ => false⟩

def pfsAttr : SchemaAttr :=
  ⟨true, false, false, Option.none, fun v => match v with | .bool _ => true | _ => false⟩

def authenticationAttr : SchemaAttr :=
  ⟨false, true, false, Option.some (AttrVal.str "none"),
    fun v => match v with | .str s => validateAllowedStringValue allowedAuthentications s | _ => false⟩

def policyIdAttr : SchemaAttr :=
  ⟨false, false, true, Option.none, fun v => match v with | .str _ => true | _ => false⟩

/-- The schema map of `resourceIBMPIIPSecPolicy` (lines 35-86). -/
def ipsecPolicySchema : List (String × SchemaAttr) :=
  [ (PICloudInstanceId, cloudInstanceIdAttr),
    (PIVPNPolicyName, policyNameAttr),
    (PIVPNPolicyDhGroup, dhGroupAttr),
    (PIVPNPolicyEncryption, encryptionAttr),
    (PIVPNPolicyKeyLifetime, keyLifetimeAttr),
    (PIVPNPolicyPFS, pfsAttr),
    (PIVPNPolicyAuthentication, authenticationAttr),
    (PIPolicyId, policyIdAttr) ]

/-- Whether the schema accepts a whole user configuration: every required
attribute is validated against its `ValidateFunc`; the optional
`authentication` attribute falls back to its schema default `"none"` when
omitted before validation. -/
def schemaAcceptsConfig (cloudInstanceID name : String) (dhGroup : Int)
    (encryption : String) (keyLifetime : Int) (pfs : Bool)
    (authentication : Option String) : Bool :=
  cloudInstanceIdAttr.validate (AttrVal.str cloudInstanceID)
  && policyNameAttr.validate (AttrVal.str name)
  && dhGroupAttr.validate (AttrVal.int dhGroup)
  && encryptionAttr.validate (AttrVal.str encryption)
  && keyLifetimeAttr.validate (AttrVal.int keyLifetime)
  && pfsAttr.validate (AttrVal.bool pfs)
  && authenticationAttr.validate (AttrVal.str (authentication.getD "none"))

/-! ### Remote-error format constants (vendor `errors` package) -/

def CreateVPNPolicyOperationFailed : String := "CreateVPNPolicyOperationFailed"
def UpdateVPNPolicyOperationFailed : String := "UpdateVPNPolicyOperationFailed"
def GetCloudConnectionOperationFailed : String := "GetCloudConnectionOperationFailed"
def DeleteVPNPolicyOperationFailed : String := "DeleteVPNPolicyOperationFailed"

/-! ### Lifecycle entry points -/

/-- The create request body built at lines 96-113: the five required
attributes mapped directly, plus `authentication` only when `d.GetOk`
reports it set (non-zero, i.e. not `""`). -/
def buildCreateBody (c : PolicyConfig) : IPSecPolicyCreate :=
  let body : IPSecPolicyCreate :=
    ⟨c.dhGroup, c.encryption, c.keyLifetime, c.name, c.pfs, ""⟩
  if c.authentication = "" then body
  else { body with authentication := c.authentication }

/-- The update request body built at lines 142-167: starting from the zero
value, each attribute is assigned exactly under its `d.HasChange` guard,
where `HasChange` compares the prior-state value with the current one. -/
def buildUpdateBody (old new : PolicyConfig) : IPSecPolicyUpdate :=
  let b0 := emptyIPSecPolicyUpdate
  let b1 := if old.name ≠ new.name then { b0 with name := new.name } else b0
  let b2 := if old.dhGroup ≠ new.dhGroup then { b1 with dhGroup := new.dhGroup } else b1
  let b3 := if old.encryption ≠ new.encryption then { b2 with encryption := new.encryption } else b2
  let b4 := if old.keyLifetime ≠ new.keyLifetime then { b3 with keyLifetime := new.keyLifetime } else b3
  let b5 := if old.pfs ≠ new.pfs then { b4 with pfs := Option.some new.pfs } else b4
  if old.authentication ≠ new.authentication then { b5 with authentication := new.authentication } else b5

/-- `resourceIBMPIIPSecPolicyRead` (lines 177-214). -/
def resourceIBMPIIPSecPolicyRead (R : Remote) (meta : ProviderMeta)
    (d : ResourceData) : RunResult :=
  match meta.ibmPISession with
  | .error e => ⟨[Diagnostic.fromErr e], d, []⟩
  | .ok _ =>
    match idParts d.rid with
    | .error e => ⟨[Diagnostic.fromErr e], d, []⟩
    | .ok parts =>
      let cloudInstanceID := parts.getD 0 ""
      let policyID := parts.getD 1 ""
      match R.get policyID cloudInstanceID with
      | .error e =>
        ⟨[Diagnostic.errorf GetCloudConnectionOperationFailed [policyID, e]], d,
          [ApiCall.getCall policyID cloudInstanceID]⟩
      | .ok p =>
        ⟨[],
          { d with
            policyID := p.id,
            conf :=
              ⟨p.name, p.dhGroup, p.encryption, p.keyLifetime, p.pfs, p.authentication⟩ },
          [ApiCall.getCall policyID cloudInstanceID]⟩

/-- `resourceIBMPIIPSecPolicyCreate` (lines 90-125). -/
def resourceIBMPIIPSecPolicyCreate (R : Remote) (meta : ProviderMeta)
    (d : ResourceData) : RunResult :=
  match meta.ibmPISession with
  | .error e => ⟨[Diagnostic.fromErr e], d, []⟩
  | .ok _ =>
    let cloudInstanceID := d.cloudInstanceID
    let body := buildCreateBody d.conf
    match R.create body cloudInstanceID with
    | .error e =>
      ⟨[Diagnostic.errorf CreateVPNPolicyOperationFailed [cloudInstanceID, e]], d,
        [ApiCall.createCall body cloudInstanceID]⟩
    | .ok p =>
      let d1 := { d with rid := cloudInstanceID ++ "/" ++ p.id }
      let r := resourceIBMPIIPSecPolicyRead R meta d1
      ⟨r.diags, r.d, ApiCall.createCall body cloudInstanceID :: r.trace⟩

/-- `resourceIBMPIIPSecPolicyUpdate` (lines 127-175). -/
def resourceIBMPIIPSecPolicyUpdate (R : Remote) (meta : ProviderMeta)
    (d : ResourceData) : RunResult :=
  match meta.ibmPISession with
  | .error e => ⟨[Diagnostic.fromErr e], d, []⟩
  | .ok _ =>
    match idParts d.rid with
    | .error e => ⟨[Diagnostic.fromErr e], d, []⟩
    | .ok parts =>
      let cloudInstanceID := parts.getD 0 ""
      let policyID := parts.getD 1 ""
      let body := buildUpdateBody d.oldConf d.conf
      match R.update body policyID cloudInstanceID with
      | .error e =>
        ⟨[Diagnostic.errorf UpdateVPNPolicyOperationFailed [policyID, e]], d,
          [ApiCall.updateCall body policyID cloudInstanceID]⟩
      | .ok _ =>
        let r := resourceIBMPIIPSecPolicyRead R meta d
        ⟨r.diags, r.d, ApiCall.updateCall body policyID cloudInstanceID :: r.trace⟩

/-- `resourceIBMPIIPSecPolicyDelete` (lines 216-247): on any remote error
(a not-found included, since the 404 special case is commented out) the
diagnostic is returned and the identifier kept; only on success is the
identifier cleared. -/
def resourceIBMPIIPSecPolicyDelete (R : Remote) (meta : ProviderMeta)
    (d : ResourceData) : RunResult :=
  match meta.ibmPISession with
  | .error e => ⟨[Diagnostic.fromErr e], d, []⟩
  | .ok _ =>
    match idParts d.rid with
    | .error e => ⟨[Diagnostic.fromErr e], d, []⟩
    | .ok parts =>
      let cloudInstanceID := parts.getD 0 ""
      let policyID := parts.getD 1 ""
      match R.delete policyID cloudInstanceID with
      | .error e =>
        ⟨[Diagnostic.errorf DeleteVPNPolicyOperationFailed [policyID, e]], d,
          [ApiCall.deleteCall policyID cloudInstanceID]⟩
      | .ok _ =>
        ⟨[], { d with rid := "" }, [ApiCall.deleteCall policyID cloudInstanceID]⟩

/-- Resource timeouts (lines 29-33), in minutes. -/
structure ResourceTimeout where
  create : Nat
  update : Nat
  delete : Nat
  deriving DecidableEq

/-- The `*schema.Resource` returned by `resourceIBMPIIPSecPolicy`: the four
lifecycle contexts, an importer, the timeouts, and the schema. -/
structure Resource where
  createContext : Remote → ProviderMeta → ResourceData → RunResult
  readContext : Remote → ProviderMeta → ResourceData → RunResult
  updateContext : Remote → ProviderMeta → ResourceData → RunResult
  deleteContext : Remote → ProviderMeta → ResourceData → RunResult
  hasImporter : Bool
  timeouts : ResourceTimeout
  schema : List (String × SchemaAttr)

/-- `resourceIBMPIIPSecPolicy` (lines 21-88). -/
def resourceIBMPIIPSecPolicy : Resource :=
  ⟨resourceIBMPIIPSecPolicyCreate,
   resourceIBMPIIPSecPolicyRead,
   resourceIBMPIIPSecPolicyUpdate,
   resourceIBMPIIPSecPolicyDelete,
   true,
   ⟨10, 10, 10⟩,
   ipsecPolicySchema⟩

/-! ### Auxiliary notions used by the specification theorems -/

/-- The kind of remote operation a call exercises. -/
inductive OpKind where
  | createOp
  | getOp
  | updateOp
  | deleteOp
  deriving DecidableEq

/-- The operation kind of a recorded call. -/
def ApiCall.kind : ApiCall → OpKind
  | .createCall _ _ => .createOp
  | .getCall _ _ => .getOp
  | .updateCall _ _ _ => .updateOp
  | .deleteCall _ _ => .deleteOp

/-- The remote oracle answered this recorded call without an error. -/
def remoteOk (R : Remote) : ApiCall → Prop
  | .createCall b cid => ∃ p, R.create b cid = Except.ok p
  | .getCall pid cid => ∃ p, R.get pid cid = Except.ok p
  | .updateCall b pid cid => ∃ p, R.update b pid cid = Except.ok p
  | .deleteCall pid cid => R.delete pid cid = Except.ok ()

/-- Two remote oracles answer this recorded call identically. -/
def agreeOn (R1 R2 : Remote) : ApiCall → Prop
  | .createCall b cid => R1.create b cid = R2.create b cid
  | .getCall pid cid => R1.get pid cid = R2.get pid cid
  | .updateCall b pid cid => R1.update b pid cid = R2.update b pid cid
  | .deleteCall pid cid => R1.delete pid cid = R2.delete pid cid

/-! ### Concrete sample inputs for witnesses -/

def okMeta : ProviderMeta := ⟨Except.ok ()⟩

def sampleConf : PolicyConfig := ⟨"vpn-name", 2, "aes-128-cbc", 3600, true, "none"⟩

def sampleConf2 : PolicyConfig := ⟨"vpn-two", 5, "aes-256-cbc", 7200, false, "hmac-sha1-96"⟩

def samplePolicy : IPSecPolicy := ⟨"pid-1", "vpn-name", 2, "aes-128-cbc", 3600, true, "none"⟩

def sampleData : ResourceData := ⟨"cid-1/pid-1", "cid-1", sampleConf, sampleConf, "pid-1"⟩

/-- A fresh resource whose cloud instance id itself contains a `/`. -/
def slashData : ResourceData := ⟨"", "a/b", sampleConf, sampleConf, ""⟩

/-- A resource whose current configuration differs from the prior state
only in the name and key lifetime. -/
def sampleDataChanged : ResourceData :=
  ⟨"cid-1/pid-1", "cid-1", { sampleConf with name := "vpn-renamed", keyLifetime := 7200 },
    sampleConf, "pid-1"⟩

def remoteOkAll : Remote :=
  ⟨fun _ _ => Except.ok samplePolicy,
   fun _ _ => Except.ok samplePolicy,
   fun _ _ _ => Except.ok samplePolicy,
   fun _ _ => Except.ok ()⟩

def remoteErrAll : Remote :=
  ⟨fun _ _ => Except.error "boom",
   fun _ _ => Except.error "boom",
   fun _ _ _ => Except.error "boom",
   fun _ _ => Except.error "boom"⟩

/-- An oracle that agrees with `remoteOkAll` only on the Get of policy
`"pid-1"` and answers everything else differently. -/
def remoteAlt : Remote :=
  ⟨fun _ _ => Except.error "alt-create",
   fun pid _ => if pid = "pid-1" then Except.ok samplePolicy else Except.error "alt-get",
   fun _ _ _ => Except.error "alt-update",
   fun _ _ => Except.error "alt-delete"⟩

/-! ### Helper lemmas about the identifier split -/

theorem splitSlashAux_length_pos (l acc : List Char) :
    1 ≤ (splitSlashAux l acc).length := by
  induction l generalizing acc with
  | nil => simp [splitSlashAux]
  | cons c rest ih =>
    by_cases hc : c = '/'
    · simp [splitSlashAux, hc]
    · simpa [splitSlashAux, hc] using ih (c :: acc)

theorem splitSlashAux_length_two (l acc : List Char) (h : '/' ∈ l) :
    2 ≤ (splitSlashAux l acc).length := by
  induction l generalizing acc with
  | nil => cases h
  | cons c rest ih =>
    by_cases hc : c = '/'
    · have := splitSlashAux_length_pos rest []
      simp [splitSlashAux, hc]
      omega
    · have hrest : '/' ∈ rest := by
        cases h with
        | head => exact absurd rfl hc
        | tail _ hm => exact hm
      simpa [splitSlashAux, hc] using ih (c :: acc) hrest

theorem splitSlashAux_no_slash (xs acc : List Char) (h : '/' ∉ xs) :
    splitSlashAux xs acc = [acc.reverse ++ xs] := by
  induction xs generalizing acc with
  | nil => simp [splitSlashAux]
  | cons x xs ih =>
    have hx : ¬ x = '/' := fun hh => h (hh ▸ List.mem_cons_self x xs)
    have hxs : '/' ∉ xs := fun hm => h (List.mem_cons_of_mem _ hm)
    rw [splitSlashAux, if_neg hx, ih (x :: acc) hxs]
    simp

theorem splitSlashAux_append (xs ys acc : List Char) (h : '/' ∉ xs) :
    splitSlashAux (xs ++ '/' :: ys) acc = (acc.reverse ++ xs) :: splitSlashAux ys [] := by
  induction xs generalizing acc with
  | nil => simp [splitSlashAux]
  | cons x xs ih =>
    have hx : ¬ x = '/' := fun hh => h (hh ▸ List.mem_cons_self x xs)
    have hxs : '/' ∉ xs := fun hm => h (List.mem_cons_of_mem _ hm)
    rw [List.cons_append, splitSlashAux, if_neg hx, ih (x :: acc) hxs]
    simp

theorem data_composite (cid pid : String) :
    (cid ++ "/" ++ pid).data = cid.data ++ '/' :: pid.data := by
  cases cid with
  | mk l1 =>
    cases pid with
    | mk l2 => simp [String.data_append]

theorem list_asString_data (s : String) : List.asString s.data = s := rfl

theorem splitSlash_composite (cid pid : String)
    (h1 : '/' ∉ cid.data) (h2 : '/' ∉ pid.data) :
    splitSlash (cid ++ "/" ++ pid) = [cid, pid] := by
  unfold splitSlash
  rw [data_composite, splitSlashAux_append _ _ _ h1, splitSlashAux_no_slash _ _ h2]
  simp [list_asString_data]

theorem idParts_composite (cid pid : String)
    (h1 : '/' ∉ cid.data) (h2 : '/' ∉ pid.data) :
    idParts (cid ++ "/" ++ pid) = Except.ok [cid, pid] := by
  unfold idParts
  rw [splitSlash_composite cid pid h1 h2]
  rfl

theorem idParts_ok_of_slash (id : String) (h : '/' ∈ id.data) :
    idParts id = Except.ok (splitSlash id) ∧ 2 ≤ (splitSlash id).length := by
  have hlen : 2 ≤ (splitSlash id).length := by
    unfold splitSlash
    simpa using splitSlashAux_length_two id.data [] h
  exact ⟨by unfold idParts; simp [hlen], hlen⟩

/-! ### Branch equations for the four entry points -/

theorem read_session_err (R : Remote) (m : ProviderMeta) (d : ResourceData) (e : String)
    (hs : m.ibmPISession = Except.error e) :
    resourceIBMPIIPSecPolicyRead R m d = ⟨[Diagnostic.fromErr e], d, []⟩ := by
  simp only [resourceIBMPIIPSecPolicyRead, hs]

theorem read_parts_err (R : Remote) (m : ProviderMeta) (d : ResourceData) (e : String)
    (hs : m.ibmPISession = Except.ok ()) (hp : idParts d.rid = Except.error e) :
    resourceIBMPIIPSecPolicyRead R m d = ⟨[Diagnostic.fromErr e], d, []⟩ := by
  simp only [resourceIBMPIIPSecPolicyRead, hs, hp]

theorem read_get_err (R : Remote) (m : ProviderMeta) (d : ResourceData)
    (parts : List String) (e : String)
    (hs : m.ibmPISession = Except.ok ()) (hp : idParts d.rid = Except.ok parts)
    (hg : R.get (parts.getD 1 "") (parts.getD 0 "") = Except.error e) :
    resourceIBMPIIPSecPolicyRead R m d =
      ⟨[Diagnostic.errorf GetCloudConnectionOperationFailed [parts.getD 1 "", e]], d,
        [ApiCall.getCall (parts.getD 1 "") (parts.getD 0 "")]⟩ := by
  simp only [resourceIBMPIIPSecPolicyRead, hs, hp, hg]

theorem read_get_ok (R : Remote) (m : ProviderMeta) (d : ResourceData)
    (parts : List String) (p : IPSecPolicy)
    (hs : m.ibmPISession = Except.ok ()) (hp : idParts d.rid = Except.ok parts)
    (hg : R.get (parts.getD 1 "") (parts.getD 0 "") = Except.ok p) :
    resourceIBMPIIPSecPolicyRead R m d =
      ⟨[],
        { d with
          policyID := p.id,
          conf := ⟨p.name, p.dhGroup, p.encryption, p.keyLifetime, p.pfs, p.authentication⟩ },
        [ApiCall.getCall (parts.getD 1 "") (parts.getD 0 "")]⟩ := by
  simp only [resourceIBMPIIPSecPolicyRead, hs, hp, hg]

theorem create_session_err (R : Remote) (m : ProviderMeta) (d : ResourceData) (e : String)
    (hs : m.ibmPISession = Except.error e) :
    resourceIBMPIIPSecPolicyCreate R m d = ⟨[Diagnostic.fromErr e], d, []⟩ := by
  simp only [resourceIBMPIIPSecPolicyCreate, hs]

theorem create_op_err (R : Remote) (m : ProviderMeta) (d : ResourceData) (e : String)
    (hs : m.ibmPISession = Except.ok ())
    (hc : R.create (buildCreateBody d.conf) d.cloudInstanceID = Except.error e) :
    resourceIBMPIIPSecPolicyCreate R m d =
      ⟨[Diagnostic.errorf CreateVPNPolicyOperationFailed [d.cloudInstanceID, e]], d,
        [ApiCall.createCall (buildCreateBody d.conf) d.cloudInstanceID]⟩ := by
  simp only [resourceIBMPIIPSecPolicyCreate, hs, hc]

theorem create_op_ok (R : Remote) (m : ProviderMeta) (d : ResourceData) (p : IPSecPolicy)
    (hs : m.ibmPISession = Except.ok ())
    (hc : R.create (buildCreateBody d.conf) d.cloudInstanceID = Except.ok p) :
    resourceIBMPIIPSecPolicyCreate R m d =
      ⟨(resourceIBMPIIPSecPolicyRead R m { d with rid := d.cloudInstanceID ++ "/" ++ p.id }).diags,
       (resourceIBMPIIPSecPolicyRead R m { d with rid := d.cloudInstanceID ++ "/" ++ p.id }).d,
       ApiCall.createCall (buildCreateBody d.conf) d.cloudInstanceID ::
         (resourceIBMPIIPSecPolicyRead R m { d with rid := d.cloudInstanceID ++ "/" ++ p.id }).trace⟩ := by
  simp only [resourceIBMPIIPSecPolicyCreate, hs, hc]

theorem update_session_err (R : Remote) (m : ProviderMeta) (d : ResourceData) (e : String)
    (hs : m.ibmPISession = Except.error e) :
    resourceIBMPIIPSecPolicyUpdate R m d = ⟨[Diagnostic.fromErr e], d, []⟩ := by
  simp only [resourceIBMPIIPSecPolicyUpdate, hs]

theorem update_parts_err (R : Remote) (m : ProviderMeta) (d : ResourceData) (e : String)
    (hs : m.ibmPISession = Except.ok ()) (hp : idParts d.rid = Except.error e) :
    resourceIBMPIIPSecPolicyUpdate R m d = ⟨[Diagnostic.fromErr e], d, []⟩ := by
  simp only [resourceIBMPIIPSecPolicyUpdate, hs, hp]

theorem update_op_err (R : Remote) (m : ProviderMeta) (d : ResourceData)
    (parts : List String) (e : String)
    (hs : m.ibmPISession = Except.ok ()) (hp : idParts d.rid = Except.ok parts)
    (hu : R.update (buildUpdateBody d.oldConf d.conf) (parts.getD 1 "") (parts.getD 0 "") =
      Except.error e) :
    resourceIBMPIIPSecPolicyUpdate R m d =
      ⟨[Diagnostic.errorf UpdateVPNPolicyOperationFailed [parts.getD 1 "", e]], d,
        [ApiCall.updateCall (buildUpdateBody d.oldConf d.conf) (parts.getD 1 "") (parts.getD 0 "")]⟩ := by
  simp only [resourceIBMPIIPSecPolicyUpdate, hs, hp, hu]

theorem update_op_ok (R : Remote) (m : ProviderMeta) (d : ResourceData)
    (parts : List String) (p : IPSecPolicy)
    (hs : m.ibmPISession = Except.ok ()) (hp : idParts d.rid = Except.ok parts)
    (hu : R.update (buildUpdateBody d.oldConf d.conf) (parts.getD 1 "") (parts.getD 0 "") =
      Except.ok p) :
    resourceIBMPIIPSecPolicyUpdate R m d =
      ⟨(resourceIBMPIIPSecPolicyRead R m d).diags,
       (resourceIBMPIIPSecPolicyRead R m d).d,
       ApiCall.updateCall (buildUpdateBody d.oldConf d.conf) (parts.getD 1 "") (parts.getD 0 "") ::
         (resourceIBMPIIPSecPolicyRead R m d).trace⟩ := by
  simp only [resourceIBMPIIPSecPolicyUpdate, hs, hp, hu]

theorem delete_session_err (R : Remote) (m : ProviderMeta) (d : ResourceData) (e : String)
    (hs : m.ibmPISession = Except.error e) :
    resourceIBMPIIPSecPolicyDelete R m d = ⟨[Diagnostic.fromErr e], d, []⟩ := by
  simp only [resourceIBMPIIPSecPolicyDelete, hs]

theorem delete_parts_err (R : Remote) (m : ProviderMeta) (d : ResourceData) (e : String)
    (hs : m.ibmPISession = Except.ok ()) (hp : idParts d.rid = Except.error e) :
    resourceIBMPIIPSecPolicyDelete R m d = ⟨[Diagnostic.fromErr e], d, []⟩ := by
  simp only [resourceIBMPIIPSecPolicyDelete, hs, hp]

theorem delete_op_err (R : Remote) (m : ProviderMeta) (d : ResourceData)
    (parts : List String) (e : String)
    (hs : m.ibmPISession = Except.ok ()) (hp : idParts d.rid = Except.ok parts)
    (hdel : R.delete (parts.getD 1 "") (parts.getD 0 "") = Except.error e) :
    resourceIBMPIIPSecPolicyDelete R m d =
      ⟨[Diagnostic.errorf DeleteVPNPolicyOperationFailed [parts.getD 1 "", e]], d,
        [ApiCall.deleteCall (parts.getD 1 "") (parts.getD 0 "")]⟩ := by
  simp only [resourceIBMPIIPSecPolicyDelete, hs, hp, hdel]

theorem delete_op_ok (R : Remote) (m : ProviderMeta) (d : ResourceData)
    (parts : List String)
    (hs : m.ibmPISession = Except.ok ()) (hp : idParts d.rid = Except.ok parts)
    (hdel : R.delete (parts.getD 1 "") (parts.getD 0 "") = Except.ok ()) :
    resourceIBMPIIPSecPolicyDelete R m d =
      ⟨[], { d with rid := "" }, [ApiCall.deleteCall (parts.getD 1 "") (parts.getD 0 "")]⟩ := by
  simp only [resourceIBMPIIPSecPolicyDelete, hs, hp, hdel]

/-! ### Oracle-agreement determinism: the outcome depends only on the
responses to the calls actually made -/

theorem read_agree (R1 R2 : Remote) (m : ProviderMeta) (d : ResourceData)
    (h : ∀ c ∈ (resourceIBMPIIPSecPolicyRead R1 m d).trace, agreeOn R1 R2 c) :
    resourceIBMPIIPSecPolicyRead R2 m d = resourceIBMPIIPSecPolicyRead R1 m d := by
  cases hs : m.ibmPISession with
  | error e => rw [read_session_err R2 m d e hs, read_session_err R1 m d e hs]
  | ok u =>
    cases u
    cases hp : idParts d.rid with
    | error e => rw [read_parts_err R2 m d e hs hp, read_parts_err R1 m d e hs hp]
    | ok parts =>
      have hmem : ApiCall.getCall (parts.getD 1 "") (parts.getD 0 "") ∈
          (resourceIBMPIIPSecPolicyRead R1 m d).trace := by
        cases hg : R1.get (parts.getD 1 "") (parts.getD 0 "") with
        | error e => rw [read_get_err R1 m d parts e hs hp hg]; exact List.mem_singleton.mpr rfl
        | ok p => rw [read_get_ok R1 m d parts p hs hp hg]; exact List.mem_singleton.mpr rfl
      have hag : R1.get (parts.getD 1 "") (parts.getD 0 "") =
          R2.get (parts.getD 1 "") (parts.getD 0 "") := h _ hmem
      cases hg : R1.get (parts.getD 1 "") (parts.getD 0 "") with
      | error e =>
        rw [read_get_err R1 m d parts e hs hp hg,
          read_get_err R2 m d parts e hs hp (hag.symm.trans hg)]
      | ok p =>
        rw [read_get_ok R1 m d parts p hs hp hg,
          read_get_ok R2 m d parts p hs hp (hag.symm.trans hg)]

theorem create_agree (R1 R2 : Remote) (m : ProviderMeta) (d : ResourceData)
    (h : ∀ c ∈ (resourceIBMPIIPSecPolicyCreate R1 m d).trace, agreeOn R1 R2 c) :
    resourceIBMPIIPSecPolicyCreate R2 m d = resourceIBMPIIPSecPolicyCreate R1 m d := by
  cases hs : m.ibmPISession with
  | error e => rw [create_session_err R2 m d e hs, create_session_err R1 m d e hs]
  | ok u =>
    cases u
    have hmem : ApiCall.createCall (buildCreateBody d.conf) d.cloudInstanceID ∈
        (resourceIBMPIIPSecPolicyCreate R1 m d).trace := by
      cases hc : R1.create (buildCreateBody d.conf) d.cloudInstanceID with
      | error e => rw [create_op_err R1 m d e hs hc]; exact List.mem_singleton.mpr rfl
      | ok p => rw [create_op_ok R1 m d p hs hc]; exact List.mem_cons_self _ _
    have hag : R1.create (buildCreateBody d.conf) d.cloudInstanceID =
        R2.create (buildCreateBody d.conf) d.cloudInstanceID := h _ hmem
    cases hc : R1.create (buildCreateBody d.conf) d.cloudInstanceID with
    | error e =>
      rw [create_op_err R1 m d e hs hc, create_op_err R2 m d e hs (hag.symm.trans hc)]
    | ok p =>
      have hread : resourceIBMPIIPSecPolicyRead R2 m
            { d with rid := d.cloudInstanceID ++ "/" ++ p.id } =
          resourceIBMPIIPSecPolicyRead R1 m
            { d with rid := d.cloudInstanceID ++ "/" ++ p.id } := by
        apply read_agree
        intro c hcmem
        apply h
        rw [create_op_ok R1 m d p hs hc]
        exact List.mem_cons_of_mem _ hcmem
      rw [create_op_ok R1 m d p hs hc, create_op_ok R2 m d p hs (hag.symm.trans hc), hread]

theorem update_agree (R1 R2 : Remote) (m : ProviderMeta) (d : ResourceData)
    (h : ∀ c ∈ (resourceIBMPIIPSecPolicyUpdate R1 m d).trace, agreeOn R1 R2 c) :
    resourceIBMPIIPSecPolicyUpdate R2 m d = resourceIBMPIIPSecPolicyUpdate R1 m d := by
  cases hs : m.ibmPISession with
  | error e => rw [update_session_err R2 m d e hs, update_session_err R1 m d e hs]
  | ok u =>
    cases u
    cases hp : idParts d.rid with
    | error e => rw [update_parts_err R2 m d e hs hp, update_parts_err R1 m d e hs hp]
    | ok parts =>
      have hmem : ApiCall.updateCall (buildUpdateBody d.oldConf d.conf)
          (parts.getD 1 "") (parts.getD 0 "") ∈
          (resourceIBMPIIPSecPolicyUpdate R1 m d).trace := by
        cases hu : R1.update (buildUpdateBody d.oldConf d.conf) (parts.getD 1 "") (parts.getD 0 "") with
        | error e => rw [update_op_err R1 m d parts e hs hp hu]; exact List.mem_singleton.mpr rfl
        | ok p => rw [update_op_ok R1 m d parts p hs hp hu]; exact List.mem_cons_self _ _
      have hag : R1.update (buildUpdateBody d.oldConf d.conf) (parts.getD 1 "") (parts.getD 0 "") =
          R2.update (buildUpdateBody d.oldConf d.conf) (parts.getD 1 "") (parts.getD 0 "") :=
        h _ hmem
      cases hu : R1.update (buildUpdateBody d.oldConf d.conf) (parts.getD 1 "") (parts.getD 0 "") with
      | error e =>
        rw [update_op_err R1 m d parts e hs hp hu,
          update_op_err R2 m d parts e hs hp (hag.symm.trans hu)]
      | ok p =>
        have hread : resourceIBMPIIPSecPolicyRead R2 m d =
            resourceIBMPIIPSecPolicyRead R1 m d := by
          apply read_agree
          intro c hcmem
          apply h
          rw [update_op_ok R1 m d parts p hs hp hu]
          exact List.mem_cons_of_mem _ hcmem
        rw [update_op_ok R1 m d parts p hs hp hu,
          update_op_ok R2 m d parts p hs hp (hag.symm.trans hu), hread]

theorem delete_agree (R1 R2 : Remote) (m : ProviderMeta) (d : ResourceData)
    (h : ∀ c ∈ (resourceIBMPIIPSecPolicyDelete R1 m d).trace, agreeOn R1 R2 c) :
    resourceIBMPIIPSecPolicyDelete R2 m d = resourceIBMPIIPSecPolicyDelete R1 m d := by
  cases hs : m.ibmPISession with
  | error e => rw [delete_session_err R2 m d e hs, delete_session_err R1 m d e hs]
  | ok u =>
    cases u
    cases hp : idParts d.rid with
    | error e => rw [delete_parts_err R2 m d e hs hp, delete_parts_err R1 m d e hs hp]
    | ok parts =>
      have hmem : ApiCall.deleteCall (parts.getD 1 "") (parts.getD 0 "") ∈
          (resourceIBMPIIPSecPolicyDelete R1 m d).trace := by
        cases hdel : R1.delete (parts.getD 1 "") (parts.getD 0 "") with
        | error e => rw [delete_op_err R1 m d parts e hs hp hdel]; exact List.mem_singleton.mpr rfl
        | ok u => cases u; rw [delete_op_ok R1 m d parts hs hp hdel]; exact List.mem_singleton.mpr rfl
      have hag : R1.delete (parts.getD 1 "") (parts.getD 0 "") =
          R2.delete (parts.getD 1 "") (parts.getD 0 "") := h _ hmem
      cases hdel : R1.delete (parts.getD 1 "") (parts.getD 0 "") with
      | error e =>
        rw [delete_op_err R1 m d parts e hs hp hdel,
          delete_op_err R2 m d parts e hs hp (hag.symm.trans hdel)]
      | ok u =>
        cases u
        rw [delete_op_ok R1 m d parts hs hp hdel,
          delete_op_ok R2 m d parts hs hp (hag.symm.trans hdel)]

/-! ### Trace shapes, identifier preservation, and success characterizations -/

theorem read_preserves_rid (R : Remote) (m : ProviderMeta) (d : ResourceData) :
    (resourceIBMPIIPSecPolicyRead R m d).d.rid = d.rid := by
  cases hs : m.ibmPISession with
  | error e => rw [read_session_err R m d e hs]
  | ok u =>
    cases u
    cases hp : idParts d.rid with
    | error e => rw [read_parts_err R m d e hs hp]
    | ok parts =>
      cases hg : R.get (parts.getD 1 "") (parts.getD 0 "") with
      | error e => rw [read_get_err R m d parts e hs hp hg]
      | ok p => rw [read_get_ok R m d parts p hs hp hg]

theorem read_trace_shape (R : Remote) (m : ProviderMeta) (d : ResourceData) :
    (resourceIBMPIIPSecPolicyRead R m d).trace = [] ∨
    ∃ pid cid, (resourceIBMPIIPSecPolicyRead R m d).trace = [ApiCall.getCall pid cid] := by
  cases hs : m.ibmPISession with
  | error e => left; rw [read_session_err R m d e hs]
  | ok u =>
    cases u
    cases hp : idParts d.rid with
    | error e => left; rw [read_parts_err R m d e hs hp]
    | ok parts =>
      right
      refine ⟨parts.getD 1 "", parts.getD 0 "", ?_⟩
      cases hg : R.get (parts.getD 1 "") (parts.getD 0 "") with
      | error e => rw [read_get_err R m d parts e hs hp hg]
      | ok p => rw [read_get_ok R m d parts p hs hp hg]

theorem read_trace_eq (R : Remote) (m : ProviderMeta) (d : ResourceData)
    (parts : List String)
    (hs : m.ibmPISession = Except.ok ()) (hp : idParts d.rid = Except.ok parts) :
    (resourceIBMPIIPSecPolicyRead R m d).trace =
      [ApiCall.getCall (parts.getD 1 "") (parts.getD 0 "")] := by
  cases hg : R.get (parts.getD 1 "") (parts.getD 0 "") with
  | error e => rw [read_get_err R m d parts e hs hp hg]
  | ok p => rw [read_get_ok R m d parts p hs hp hg]

theorem delete_trace_shape (R : Remote) (m : ProviderMeta) (d : ResourceData) :
    (resourceIBMPIIPSecPolicyDelete R m d).trace = [] ∨
    ∃ pid cid, (resourceIBMPIIPSecPolicyDelete R m d).trace = [ApiCall.deleteCall pid cid] := by
  cases hs : m.ibmPISession with
  | error e => left; rw [delete_session_err R m d e hs]
  | ok u =>
    cases u
    cases hp : idParts d.rid with
    | error e => left; rw [delete_parts_err R m d e hs hp]
    | ok parts =>
      right
      refine ⟨parts.getD 1 "", parts.getD 0 "", ?_⟩
      cases hdel : R.delete (parts.getD 1 "") (parts.getD 0 "") with
      | error e => rw [delete_op_err R m d parts e hs hp hdel]
      | ok u => cases u; rw [delete_op_ok R m d parts hs hp hdel]

theorem create_trace_shape (R : Remote) (m : ProviderMeta) (d : ResourceData) :
    (resourceIBMPIIPSecPolicyCreate R m d).trace = [] ∨
    (∃ b cid, (resourceIBMPIIPSecPolicyCreate R m d).trace = [ApiCall.createCall b cid]) ∨
    (∃ b cid pid cid2,
      (resourceIBMPIIPSecPolicyCreate R m d).trace =
        [ApiCall.createCall b cid, ApiCall.getCall pid cid2]) := by
  cases hs : m.ibmPISession with
  | error e => left; rw [create_session_err R m d e hs]
  | ok u =>
    cases u
    cases hc : R.create (buildCreateBody d.conf) d.cloudInstanceID with
    | error e =>
      right; left
      exact ⟨_, _, by rw [create_op_err R m d e hs hc]⟩
    | ok p =>
      rcases read_trace_shape R m { d with rid := d.cloudInstanceID ++ "/" ++ p.id } with h0 | ⟨pid, cid2, h2⟩
      · right; left
        refine ⟨buildCreateBody d.conf, d.cloudInstanceID, ?_⟩
        rw [create_op_ok R m d p hs hc, h0]
      · right; right
        refine ⟨buildCreateBody d.conf, d.cloudInstanceID, pid, cid2, ?_⟩
        rw [create_op_ok R m d p hs hc, h2]

theorem update_trace_shape (R : Remote) (m : ProviderMeta) (d : ResourceData) :
    (resourceIBMPIIPSecPolicyUpdate R m d).trace = [] ∨
    (∃ b pid cid, (resourceIBMPIIPSecPolicyUpdate R m d).trace = [ApiCall.updateCall b pid cid]) ∨
    (∃ b pid cid pid2 cid2,
      (resourceIBMPIIPSecPolicyUpdate R m d).trace =
        [ApiCall.updateCall b pid cid, ApiCall.getCall pid2 cid2]) := by
  cases hs : m.ibmPISession with
  | error e => left; rw [update_session_err R m d e hs]
  | ok u =>
    cases u
    cases hp : idParts d.rid with
    | error e => left; rw [update_parts_err R m d e hs hp]
    | ok parts =>
      cases hu : R.update (buildUpdateBody d.oldConf d.conf) (parts.getD 1 "") (parts.getD 0 "") with
      | error e =>
        right; left
        exact ⟨_, _, _, by rw [update_op_err R m d parts e hs hp hu]⟩
      | ok p =>
        right; right
        refine ⟨buildUpdateBody d.oldConf d.conf, parts.getD 1 "", parts.getD 0 "",
          parts.getD 1 "", parts.getD 0 "", ?_⟩
        rw [update_op_ok R m d parts p hs hp hu, read_trace_eq R m d parts hs hp]

/-- If a Read returned no diagnostics, every call it made succeeded. -/
theorem read_ok_of_diags_nil (R : Remote) (m : ProviderMeta) (d : ResourceData)
    (h : (resourceIBMPIIPSecPolicyRead R m d).diags = []) :
    ∀ c ∈ (resourceIBMPIIPSecPolicyRead R m d).trace, remoteOk R c := by
  cases hs : m.ibmPISession with
  | error e => rw [read_session_err R m d e hs] at h; cases h
  | ok u =>
    cases u
    cases hp : idParts d.rid with
    | error e => rw [read_parts_err R m d e hs hp] at h; cases h
    | ok parts =>
      cases hg : R.get (parts.getD 1 "") (parts.getD 0 "") with
      | error e => rw [read_get_err R m d parts e hs hp hg] at h; cases h
      | ok p =>
        rw [read_get_ok R m d parts p hs hp hg]
        intro c hc
        rw [List.mem_singleton] at hc
        subst hc
        exact ⟨p, hg⟩

/-- If a Delete returned no diagnostics, every call it made succeeded. -/
theorem delete_ok_of_diags_nil (R : Remote) (m : ProviderMeta) (d : ResourceData)
    (h : (resourceIBMPIIPSecPolicyDelete R m d).diags = []) :
    ∀ c ∈ (resourceIBMPIIPSecPolicyDelete R m d).trace, remoteOk R c := by
  cases hs : m.ibmPISession with
  | error e => rw [delete_session_err R m d e hs] at h; cases h
  | ok u =>
    cases u
    cases hp : idParts d.rid with
    | error e => rw [delete_parts_err R m d e hs hp] at h; cases h
    | ok parts =>
      cases hdel : R.delete (parts.getD 1 "") (parts.getD 0 "") with
      | error e => rw [delete_op_err R m d parts e hs hp hdel] at h; cases h
      | ok u =>
        cases u
        rw [delete_op_ok R m d parts hs hp hdel]
        intro c hc
        rw [List.mem_singleton] at hc
        subst hc
        exact hdel

/-- If a Create returned no diagnostics, every call it made succeeded. -/
theorem create_ok_of_diags_nil (R : Remote) (m : ProviderMeta) (d : ResourceData)
    (h : (resourceIBMPIIPSecPolicyCreate R m d).diags = []) :
    ∀ c ∈ (resourceIBMPIIPSecPolicyCreate R m d).trace, remoteOk R c := by
  cases hs : m.ibmPISession with
  | error e => rw [create_session_err R m d e hs] at h; cases h
  | ok u =>
    cases u
    cases hc : R.create (buildCreateBody d.conf) d.cloudInstanceID with
    | error e => rw [create_op_err R m d e hs hc] at h; cases h
    | ok p =>
      rw [create_op_ok R m d p hs hc] at h ⊢
      intro c hcmem
      rw [List.mem_cons] at hcmem
      cases hcmem with
      | inl hhead => subst hhead; exact ⟨p, hc⟩
      | inr htail => exact read_ok_of_diags_nil R m _ h c htail

/-- If an Update returned no diagnostics, every call it made succeeded. -/
theorem update_ok_of_diags_nil (R : Remote) (m : ProviderMeta) (d : ResourceData)
    (h : (resourceIBMPIIPSecPolicyUpdate R m d).diags = []) :
    ∀ c ∈ (resourceIBMPIIPSecPolicyUpdate R m d).trace, remoteOk R c := by
  cases hs : m.ibmPISession with
  | error e => rw [update_session_err R m d e hs] at h; cases h
  | ok u =>
    cases u
    cases hp : idParts d.rid with
    | error e => rw [update_parts_err R m d e hs hp] at h; cases h
    | ok parts =>
      cases hu : R.update (buildUpdateBody d.oldConf d.conf) (parts.getD 1 "") (parts.getD 0 "") with
      | error e => rw [update_op_err R m d parts e hs hp hu] at h; cases h
      | ok p =>
        rw [update_op_ok R m d parts p hs hp hu] at h ⊢
        intro c hcmem
        rw [List.mem_cons] at hcmem
        cases hcmem with
        | inl hhead => subst hhead; exact ⟨p, hu⟩
        | inr htail => exact read_ok_of_diags_nil R m d h c htail

/-- The create body carries the five required attributes unchanged. -/
theorem buildCreateBody_fields (c : PolicyConfig) :
    (buildCreateBody c).dhGroup = c.dhGroup ∧
    (buildCreateBody c).encryption = c.encryption ∧
    (buildCreateBody c).keyLifetime = c.keyLifetime ∧
    (buildCreateBody c).name = c.name ∧
    (buildCreateBody c).pfs = c.pfs := by
  unfold buildCreateBody
  by_cases h : c.authentication = "" <;> simp [h]

/-- Closed form of the update body: each field is its configured value when
the attribute changed and its Go zero value otherwise. -/
theorem buildUpdateBody_eq (old new : PolicyConfig) :
    buildUpdateBody old new =
      ⟨if old.name = new.name then "" else new.name,
       if old.dhGroup = new.dhGroup then 0 else new.dhGroup,
       if old.encryption = new.encryption then "" else new.encryption,
       if old.keyLifetime = new.keyLifetime then 0 else new.keyLifetime,
       if old.pfs = new.pfs then Option.none else Option.some new.pfs,
       if old.authentication = new.authentication then "" else new.authentication⟩ := by
  unfold buildUpdateBody emptyIPSecPolicyUpdate
  by_cases h1 : old.name = new.name <;>
    by_cases h2 : old.dhGroup = new.dhGroup <;>
      by_cases h3 : old.encryption = new.encryption <;>
        by_cases h4 : old.keyLifetime = new.keyLifetime <;>
          by_cases h5 : old.pfs = new.pfs <;>
            by_cases h6 : old.authentication = new.authentication <;>
              simp [h1, h2, h3, h4, h5, h6]

/-! ## Claim theorems -/

/-- C1 fails as stated: with `cloudInstanceID = "a/b"` (a cloud instance id
containing a slash) and remote policy id `"pid-1"`, a successful Create
stores `"a/b/pid-1"`, but parsing that identifier yields the parts
`["a", "b", "pid-1"]`, so the chained Read issues a Get for policy `"b"`
in cloud instance `"a"` — it does not recover `"a/b"` and `"pid-1"`. -/
theorem claimC1_counterexample :
    (resourceIBMPIIPSecPolicyCreate remoteOkAll okMeta slashData).d.rid = "a/b/pid-1" ∧
    idParts "a/b/pid-1" = Except.ok ["a", "b", "pid-1"] ∧
    (resourceIBMPIIPSecPolicyCreate remoteOkAll okMeta slashData).trace =
      [ApiCall.createCall (buildCreateBody sampleConf) "a/b", ApiCall.getCall "b" "a"] ∧
    ("a" : String) ≠ "a/b" :=
  ⟨rfl, rfl, rfl, by decide⟩

/-- C1 (amended): a successful Create sets the stored identifier to
`cloudInstanceID ++ "/" ++ policyID` with `policyID` the id returned by the
remote create call, and for every `cloudInstanceID` and `policyID` that
contain no `/` themselves, splitting the composed identifier recovers
exactly `cloudInstanceID` as the first part and `policyID` as the second,
so composition followed by parsing round-trips on slash-free components. -/
theorem claimC1_composite_id_roundtrip (R : Remote) (m : ProviderMeta)
    (d : ResourceData) (p : IPSecPolicy) (cid pid : String)
    (hs : m.ibmPISession = Except.ok ())
    (hc : R.create (buildCreateBody d.conf) d.cloudInstanceID = Except.ok p) :
    (resourceIBMPIIPSecPolicyCreate R m d).d.rid = d.cloudInstanceID ++ "/" ++ p.id ∧
    ('/' ∉ cid.data → '/' ∉ pid.data →
      idParts (cid ++ "/" ++ pid) = Except.ok [cid, pid] ∧
      [cid, pid].getD 0 "" = cid ∧ [cid, pid].getD 1 "" = pid) := by
  constructor
  · rw [create_op_ok R m d p hs hc]
    exact read_preserves_rid R m _
  · intro h1 h2
    exact ⟨idParts_composite cid pid h1 h2, rfl, rfl⟩

theorem claimC1_witness :
    okMeta.ibmPISession = Except.ok () ∧
    remoteOkAll.create (buildCreateBody sampleData.conf) sampleData.cloudInstanceID =
      Except.ok samplePolicy ∧
    '/' ∉ "cid-1".data ∧
    (resourceIBMPIIPSecPolicyCreate remoteOkAll okMeta sampleData).d.rid =
      sampleData.cloudInstanceID ++ "/" ++ samplePolicy.id ∧
    idParts ("cid-1" ++ "/" ++ "pid-1") = Except.ok ["cid-1", "pid-1"] := by
  have h := claimC1_composite_id_roundtrip remoteOkAll okMeta sampleData samplePolicy
    "cid-1" "pid-1" rfl rfl
  exact ⟨rfl, rfl, by decide, h.1, (h.2 (by decide) (by decide)).1⟩

/-- C2: after a Read whose session setup, identifier parsing and remote Get
all succeed, the seven local attributes equal the corresponding fields of
the remote response, and the Read reports success. -/
theorem claimC2_read_synchronizes_state (R : Remote) (m : ProviderMeta)
    (d : ResourceData) (parts : List String) (p : IPSecPolicy)
    (hs : m.ibmPISession = Except.ok ())
    (hp : idParts d.rid = Except.ok parts)
    (hg : R.get (parts.getD 1 "") (parts.getD 0 "") = Except.ok p) :
    (resourceIBMPIIPSecPolicyRead R m d).diags = [] ∧
    (resourceIBMPIIPSecPolicyRead R m d).d.policyID = p.id ∧
    (resourceIBMPIIPSecPolicyRead R m d).d.conf.name = p.name ∧
    (resourceIBMPIIPSecPolicyRead R m d).d.conf.dhGroup = p.dhGroup ∧
    (resourceIBMPIIPSecPolicyRead R m d).d.conf.encryption = p.encryption ∧
    (resourceIBMPIIPSecPolicyRead R m d).d.conf.keyLifetime = p.keyLifetime ∧
    (resourceIBMPIIPSecPolicyRead R m d).d.conf.pfs = p.pfs ∧
    (resourceIBMPIIPSecPolicyRead R m d).d.conf.authentication = p.authentication := by
  rw [read_get_ok R m d parts p hs hp hg]
  exact ⟨rfl, rfl, rfl, rfl, rfl, rfl, rfl, rfl⟩

theorem claimC2_witness :
    idParts sampleData.rid = Except.ok ["cid-1", "pid-1"] ∧
    (resourceIBMPIIPSecPolicyRead remoteOkAll okMeta sampleData).diags = [] ∧
    (resourceIBMPIIPSecPolicyRead remoteOkAll okMeta sampleData).d.conf.name =
      samplePolicy.name := by
  have h := claimC2_read_synchronizes_state remoteOkAll okMeta sampleData
    ["cid-1", "pid-1"] samplePolicy rfl rfl rfl
  exact ⟨rfl, h.1, h.2.2.1⟩

/-- C3 fails as stated: a successful Create performs two request/response
exchanges (its own create call, then the chained Read's get call), not
exactly one. -/
theorem claimC3_counterexample :
    (resourceIBMPIIPSecPolicyCreate remoteOkAll okMeta sampleData).trace.length = 2 ∧
    (resourceIBMPIIPSecPolicyCreate remoteOkAll okMeta sampleData).trace.length ≠ 1 :=
  ⟨rfl, by decide⟩

/-- C3 (amended): Read and Delete perform at most one exchange — exactly
one once session setup and identifier parsing succeed; Create and Update
perform at most two — exactly one exchange with their own operation
(whether it fails or succeeds), plus exactly one more (the chained Read's
Get) when that operation succeeds. -/
theorem claimC3_exchange_counts :
    (∀ (R : Remote) (m : ProviderMeta) (d : ResourceData),
      (resourceIBMPIIPSecPolicyRead R m d).trace.length ≤ 1) ∧
    (∀ (R : Remote) (m : ProviderMeta) (d : ResourceData),
      (resourceIBMPIIPSecPolicyDelete R m d).trace.length ≤ 1) ∧
    (∀ (R : Remote) (m : ProviderMeta) (d : ResourceData),
      (resourceIBMPIIPSecPolicyCreate R m d).trace.length ≤ 2) ∧
    (∀ (R : Remote) (m : ProviderMeta) (d : ResourceData),
      (resourceIBMPIIPSecPolicyUpdate R m d).trace.length ≤ 2) ∧
    (∀ (R : Remote) (m : ProviderMeta) (d : ResourceData) (parts : List String),
      m.ibmPISession = Except.ok () → idParts d.rid = Except.ok parts →
      (resourceIBMPIIPSecPolicyRead R m d).trace.length = 1) ∧
    (∀ (R : Remote) (m : ProviderMeta) (d : ResourceData) (parts : List String),
      m.ibmPISession = Except.ok () → idParts d.rid = Except.ok parts →
      (resourceIBMPIIPSecPolicyDelete R m d).trace.length = 1) ∧
    (∀ (R : Remote) (m : ProviderMeta) (d : ResourceData) (e : String),
      m.ibmPISession = Except.ok () →
      R.create (buildCreateBody d.conf) d.cloudInstanceID = Except.error e →
      (resourceIBMPIIPSecPolicyCreate R m d).trace.length = 1) ∧
    (∀ (R : Remote) (m : ProviderMeta) (d : ResourceData) (p : IPSecPolicy),
      m.ibmPISession = Except.ok () →
      R.create (buildCreateBody d.conf) d.cloudInstanceID = Except.ok p →
      (resourceIBMPIIPSecPolicyCreate R m d).trace.length = 2) ∧
    (∀ (R : Remote) (m : ProviderMeta) (d : ResourceData) (parts : List String) (e : String),
      m.ibmPISession = Except.ok () → idParts d.rid = Except.ok parts →
      R.update (buildUpdateBody d.oldConf d.conf) (parts.getD 1 "") (parts.getD 0 "") =
        Except.error e →
      (resourceIBMPIIPSecPolicyUpdate R m d).trace.length = 1) ∧
    (∀ (R : Remote) (m : ProviderMeta) (d : ResourceData) (parts : List String) (p : IPSecPolicy),
      m.ibmPISession = Except.ok () → idParts d.rid = Except.ok parts →
      R.update (buildUpdateBody d.oldConf d.conf) (parts.getD 1 "") (parts.getD 0 "") =
        Except.ok p →
      (resourceIBMPIIPSecPolicyUpdate R m d).trace.length = 2) := by
  refine ⟨?_, ?_, ?_, ?_, ?_, ?_, ?_, ?_, ?_, ?_⟩
  · intro R m d
    rcases read_trace_shape R m d with h | ⟨pid, cid, h⟩ <;> simp [h]
  · intro R m d
    rcases delete_trace_shape R m d with h | ⟨pid, cid, h⟩ <;> simp [h]
  · intro R m d
    rcases create_trace_shape R m d with h | ⟨b, cid, h⟩ | ⟨b, cid, pid, cid2, h⟩ <;> simp [h]
  · intro R m d
    rcases update_trace_shape R m d with h | ⟨b, pid, cid, h⟩ | ⟨b, pid, cid, pid2, cid2, h⟩ <;>
      simp [h]
  · intro R m d parts hs hp
    rw [read_trace_eq R m d parts hs hp]
    rfl
  · intro R m d parts hs hp
    cases hdel : R.delete (parts.getD 1 "") (parts.getD 0 "") with
    | error e => rw [delete_op_err R m d parts e hs hp hdel]; rfl
    | ok u => cases u; rw [delete_op_ok R m d parts hs hp hdel]; rfl
  · intro R m d e hs hc
    rw [create_op_err R m d e hs hc]
    rfl
  · intro R m d p hs hc
    have hslash : '/' ∈ (d.cloudInstanceID ++ "/" ++ p.id).data := by
      rw [data_composite]
      exact List.mem_append_right _ (List.mem_cons_self _ _)
    obtain ⟨hp1, _⟩ := idParts_ok_of_slash _ hslash
    have hrt := read_trace_eq R m { d with rid := d.cloudInstanceID ++ "/" ++ p.id }
      (splitSlash (d.cloudInstanceID ++ "/" ++ p.id)) hs hp1
    rw [create_op_ok R m d p hs hc]
    simp [hrt]
  · intro R m d parts e hs hp hu
    rw [update_op_err R m d parts e hs hp hu]
    rfl
  · intro R m d parts p hs hp hu
    rw [update_op_ok R m d parts p hs hp hu]
    simp [read_trace_eq R m d parts hs hp]

theorem claimC3_witness :
    okMeta.ibmPISession = Except.ok () ∧
    remoteOkAll.create (buildCreateBody sampleData.conf) sampleData.cloudInstanceID =
      Except.ok samplePolicy ∧
    (resourceIBMPIIPSecPolicyCreate remoteOkAll okMeta sampleData).trace.length = 2 :=
  ⟨rfl, rfl,
    claimC3_exchange_counts.2.2.2.2.2.2.2.1 remoteOkAll okMeta sampleData samplePolicy rfl rfl⟩

/-- C4: each entry point turns every error of an operation it invoked into
a non-empty diagnostic wrapping that error (`diag.FromErr` for the session,
`diag.Errorf` with the vendor format constant for a remote client error),
Create and Update propagate the chained Read's diagnostics unchanged, the
pure success paths return the empty diagnostics, and an empty diagnostics
result implies every remote call recorded in the trace succeeded. -/
theorem claimC4_error_passthrough :
    (∀ (R : Remote) (m : ProviderMeta) (d : ResourceData) (e : String),
      m.ibmPISession = Except.error e →
      (resourceIBMPIIPSecPolicyCreate R m d).diags = [Diagnostic.fromErr e] ∧
      (resourceIBMPIIPSecPolicyRead R m d).diags = [Diagnostic.fromErr e] ∧
      (resourceIBMPIIPSecPolicyUpdate R m d).diags = [Diagnostic.fromErr e] ∧
      (resourceIBMPIIPSecPolicyDelete R m d).diags = [Diagnostic.fromErr e]) ∧
    (∀ (R : Remote) (m : ProviderMeta) (d : ResourceData) (e : String),
      m.ibmPISession = Except.ok () →
      R.create (buildCreateBody d.conf) d.cloudInstanceID = Except.error e →
      (resourceIBMPIIPSecPolicyCreate R m d).diags =
        [Diagnostic.errorf CreateVPNPolicyOperationFailed [d.cloudInstanceID, e]] ∧
      ∃ dg ∈ (resourceIBMPIIPSecPolicyCreate R m d).diags, dg.wrapsErr e) ∧
    (∀ (R : Remote) (m : ProviderMeta) (d : ResourceData) (p : IPSecPolicy),
      m.ibmPISession = Except.ok () →
      R.create (buildCreateBody d.conf) d.cloudInstanceID = Except.ok p →
      (resourceIBMPIIPSecPolicyCreate R m d).diags =
        (resourceIBMPIIPSecPolicyRead R m
          { d with rid := d.cloudInstanceID ++ "/" ++ p.id }).diags) ∧
    (∀ (R : Remote) (m : ProviderMeta) (d : ResourceData) (parts : List String) (e : String),
      m.ibmPISession = Except.ok () → idParts d.rid = Except.ok parts →
      R.get (parts.getD 1 "") (parts.getD 0 "") = Except.error e →
      (resourceIBMPIIPSecPolicyRead R m d).diags =
        [Diagnostic.errorf GetCloudConnectionOperationFailed [parts.getD 1 "", e]] ∧
      ∃ dg ∈ (resourceIBMPIIPSecPolicyRead R m d).diags, dg.wrapsErr e) ∧
    (∀ (R : Remote) (m : ProviderMeta) (d : ResourceData) (parts : List String) (p : IPSecPolicy),
      m.ibmPISession = Except.ok () → idParts d.rid = Except.ok parts →
      R.get (parts.getD 1 "") (parts.getD 0 "") = Except.ok p →
      (resourceIBMPIIPSecPolicyRead R m d).diags = []) ∧
    (∀ (R : Remote) (m : ProviderMeta) (d : ResourceData) (parts : List String) (e : String),
      m.ibmPISession = Except.ok () → idParts d.rid = Except.ok parts →
      R.update (buildUpdateBody d.oldConf d.conf) (parts.getD 1 "") (parts.getD 0 "") =
        Except.error e →
      (resourceIBMPIIPSecPolicyUpdate R m d).diags =
        [Diagnostic.errorf UpdateVPNPolicyOperationFailed [parts.getD 1 "", e]] ∧
      ∃ dg ∈ (resourceIBMPIIPSecPolicyUpdate R m d).diags, dg.wrapsErr e) ∧
    (∀ (R : Remote) (m : ProviderMeta) (d : ResourceData) (parts : List String) (p : IPSecPolicy),
      m.ibmPISession = Except.ok () → idParts d.rid = Except.ok parts →
      R.update (buildUpdateBody d.oldConf d.conf) (parts.getD 1 "") (parts.getD 0 "") =
        Except.ok p →
      (resourceIBMPIIPSecPolicyUpdate R m d).diags =
        (resourceIBMPIIPSecPolicyRead R m d).diags) ∧
    (∀ (R : Remote) (m : ProviderMeta) (d : ResourceData) (parts : List String) (e : String),
      m.ibmPISession = Except.ok () → idParts d.rid = Except.ok parts →
      R.delete (parts.getD 1 "") (parts.getD 0 "") = Except.error e →
      (resourceIBMPIIPSecPolicyDelete R m d).diags =
        [Diagnostic.errorf DeleteVPNPolicyOperationFailed [parts.getD 1 "", e]] ∧
      ∃ dg ∈ (resourceIBMPIIPSecPolicyDelete R m d).diags, dg.wrapsErr e) ∧
    (∀ (R : Remote) (m : ProviderMeta) (d : ResourceData) (parts : List String),
      m.ibmPISession = Except.ok () → idParts d.rid = Except.ok parts →
      R.delete (parts.getD 1 "") (parts.getD 0 "") = Except.ok () →
      (resourceIBMPIIPSecPolicyDelete R m d).diags = []) ∧
    (∀ (R : Remote) (m : ProviderMeta) (d : ResourceData),
      ((resourceIBMPIIPSecPolicyCreate R m d).diags = [] →
        ∀ c ∈ (resourceIBMPIIPSecPolicyCreate R m d).trace, remoteOk R c) ∧
      ((resourceIBMPIIPSecPolicyRead R m d).diags = [] →
        ∀ c ∈ (resourceIBMPIIPSecPolicyRead R m d).trace, remoteOk R c) ∧
      ((resourceIBMPIIPSecPolicyUpdate R m d).diags = [] →
        ∀ c ∈ (resourceIBMPIIPSecPolicyUpdate R m d).trace, remoteOk R c) ∧
      ((resourceIBMPIIPSecPolicyDelete R m d).diags = [] →
        ∀ c ∈ (resourceIBMPIIPSecPolicyDelete R m d).trace, remoteOk R c)) := by
  refine ⟨?_, ?_, ?_, ?_, ?_, ?_, ?_, ?_, ?_, ?_⟩
  · intro R m d e hs
    rw [create_session_err R m d e hs, read_session_err R m d e hs,
      update_session_err R m d e hs, delete_session_err R m d e hs]
    exact ⟨rfl, rfl, rfl, rfl⟩
  · intro R m d e hs hc
    rw [create_op_err R m d e hs hc]
    exact ⟨rfl, _, List.mem_singleton.mpr rfl, by simp [Diagnostic.wrapsErr]⟩
  · intro R m d p hs hc
    rw [create_op_ok R m d p hs hc]
  · intro R m d parts e hs hp hg
    rw [read_get_err R m d parts e hs hp hg]
    exact ⟨rfl, _, List.mem_singleton.mpr rfl, by simp [Diagnostic.wrapsErr]⟩
  · intro R m d parts p hs hp hg
    rw [read_get_ok R m d parts p hs hp hg]
  · intro R m d parts e hs hp hu
    rw [update_op_err R m d parts e hs hp hu]
    exact ⟨rfl, _, List.mem_singleton.mpr rfl, by simp [Diagnostic.wrapsErr]⟩
  · intro R m d parts p hs hp hu
    rw [update_op_ok R m d parts p hs hp hu]
  · intro R m d parts e hs hp hdel
    rw [delete_op_err R m d parts e hs hp hdel]
    exact ⟨rfl, _, List.mem_singleton.mpr rfl, by simp [Diagnostic.wrapsErr]⟩
  · intro R m d parts hs hp hdel
    rw [delete_op_ok R m d parts hs hp hdel]
  · intro R m d
    exact ⟨create_ok_of_diags_nil R m d, read_ok_of_diags_nil R m d,
      update_ok_of_diags_nil R m d, delete_ok_of_diags_nil R m d⟩

theorem claimC4_witness :
    okMeta.ibmPISession = Except.ok () ∧
    remoteErrAll.create (buildCreateBody sampleData.conf) sampleData.cloudInstanceID =
      Except.error "boom" ∧
    ((resourceIBMPIIPSecPolicyCreate remoteErrAll okMeta sampleData).diags =
      [Diagnostic.errorf CreateVPNPolicyOperationFailed [sampleData.cloudInstanceID, "boom"]] ∧
     ∃ dg ∈ (resourceIBMPIIPSecPolicyCreate remoteErrAll okMeta sampleData).diags,
       dg.wrapsErr "boom") :=
  ⟨rfl, rfl, claimC4_error_passthrough.2.1 remoteErrAll okMeta sampleData "boom" rfl rfl⟩

/-- C5: the resource registers exactly the four lifecycle entry points, the
trace of each entry point contains only calls of its own remote operation
(plus the chained Read's Get for Create and Update), and once the guards
preceding the client call succeed, the entry point's own operation is the
first exchange performed. -/
theorem claimC5_four_operation_adapter :
    resourceIBMPIIPSecPolicy.createContext = resourceIBMPIIPSecPolicyCreate ∧
    resourceIBMPIIPSecPolicy.readContext = resourceIBMPIIPSecPolicyRead ∧
    resourceIBMPIIPSecPolicy.updateContext = resourceIBMPIIPSecPolicyUpdate ∧
    resourceIBMPIIPSecPolicy.deleteContext = resourceIBMPIIPSecPolicyDelete ∧
    (∀ (R : Remote) (m : ProviderMeta) (d : ResourceData) (c : ApiCall),
      c ∈ (resourceIBMPIIPSecPolicyRead R m d).trace → c.kind = OpKind.getOp) ∧
    (∀ (R : Remote) (m : ProviderMeta) (d : ResourceData) (c : ApiCall),
      c ∈ (resourceIBMPIIPSecPolicyDelete R m d).trace → c.kind = OpKind.deleteOp) ∧
    (∀ (R : Remote) (m : ProviderMeta) (d : ResourceData) (c : ApiCall),
      c ∈ (resourceIBMPIIPSecPolicyCreate R m d).trace →
      c.kind = OpKind.createOp ∨ c.kind = OpKind.getOp) ∧
    (∀ (R : Remote) (m : ProviderMeta) (d : ResourceData) (c : ApiCall),
      c ∈ (resourceIBMPIIPSecPolicyUpdate R m d).trace →
      c.kind = OpKind.updateOp ∨ c.kind = OpKind.getOp) ∧
    (∀ (R : Remote) (m : ProviderMeta) (d : ResourceData),
      m.ibmPISession = Except.ok () →
      ∃ rest, (resourceIBMPIIPSecPolicyCreate R m d).trace =
        ApiCall.createCall (buildCreateBody d.conf) d.cloudInstanceID :: rest) ∧
    (∀ (R : Remote) (m : ProviderMeta) (d : ResourceData) (parts : List String),
      m.ibmPISession = Except.ok () → idParts d.rid = Except.ok parts →
      (resourceIBMPIIPSecPolicyRead R m d).trace =
        [ApiCall.getCall (parts.getD 1 "") (parts.getD 0 "")]) ∧
    (∀ (R : Remote) (m : ProviderMeta) (d : ResourceData) (parts : List String),
      m.ibmPISession = Except.ok () → idParts d.rid = Except.ok parts →
      ∃ rest, (resourceIBMPIIPSecPolicyUpdate R m d).trace =
        ApiCall.updateCall (buildUpdateBody d.oldConf d.conf)
          (parts.getD 1 "") (parts.getD 0 "") :: rest) ∧
    (∀ (R : Remote) (m : ProviderMeta) (d : ResourceData) (parts : List String),
      m.ibmPISession = Except.ok () → idParts d.rid = Except.ok parts →
      (resourceIBMPIIPSecPolicyDelete R m d).trace =
        [ApiCall.deleteCall (parts.getD 1 "") (parts.getD 0 "")]) := by
  refine ⟨rfl, rfl, rfl, rfl, ?_, ?_, ?_, ?_, ?_, ?_, ?_, ?_⟩
  · intro R m d c hc
    rcases read_trace_shape R m d with h | ⟨pid, cid, h⟩ <;> rw [h] at hc
    · cases hc
    · rw [List.mem_singleton] at hc
      subst hc
      rfl
  · intro R m d c hc
    rcases delete_trace_shape R m d with h | ⟨pid, cid, h⟩ <;> rw [h] at hc
    · cases hc
    · rw [List.mem_singleton] at hc
      subst hc
      rfl
  · intro R m d c hc
    rcases create_trace_shape R m d with h | ⟨b, cid, h⟩ | ⟨b, cid, pid, cid2, h⟩ <;>
      rw [h] at hc
    · cases hc
    · rw [List.mem_singleton] at hc
      subst hc
      exact Or.inl rfl
    · rcases List.mem_pair.mp hc with hc | hc <;> subst hc
      · exact Or.inl rfl
      · exact Or.inr rfl
  · intro R m d c hc
    rcases update_trace_shape R m d with h | ⟨b, pid, cid, h⟩ | ⟨b, pid, cid, pid2, cid2, h⟩ <;>
      rw [h] at hc
    · cases hc
    · rw [List.mem_singleton] at hc
      subst hc
      exact Or.inl rfl
    · rcases List.mem_pair.mp hc with hc | hc <;> subst hc
      · exact Or.inl rfl
      · exact Or.inr rfl
  · intro R m d hs
    cases hc : R.create (buildCreateBody d.conf) d.cloudInstanceID with
    | error e => exact ⟨[], by rw [create_op_err R m d e hs hc]⟩
    | ok p =>
      exact ⟨_, by rw [create_op_ok R m d p hs hc]⟩
  · intro R m d parts hs hp
    exact read_trace_eq R m d parts hs hp
  · intro R m d parts hs hp
    cases hu : R.update (buildUpdateBody d.oldConf d.conf) (parts.getD 1 "") (parts.getD 0 "") with
    | error e => exact ⟨[], by rw [update_op_err R m d parts e hs hp hu]⟩
    | ok p => exact ⟨_, by rw [update_op_ok R m d parts p hs hp hu]⟩
  · intro R m d parts hs hp
    cases hdel : R.delete (parts.getD 1 "") (parts.getD 0 "") with
    | error e => rw [delete_op_err R m d parts e hs hp hdel]
    | ok u =>
      cases u
      rw [delete_op_ok R m d parts hs hp hdel]

theorem claimC5_witness :
    okMeta.ibmPISession = Except.ok () ∧
    idParts sampleData.rid = Except.ok ["cid-1", "pid-1"] ∧
    (resourceIBMPIIPSecPolicyDelete remoteOkAll okMeta sampleData).trace =
      [ApiCall.deleteCall "pid-1" "cid-1"] :=
  ⟨rfl, rfl,
    claimC5_four_operation_adapter.2.2.2.2.2.2.2.2.2.2.2 remoteOkAll okMeta sampleData
      ["cid-1", "pid-1"] rfl rfl⟩

/-- C6: the create request body carries exactly the configured DH group,
encryption, key lifetime, name, and PFS values, and once the session is
available that body is what the create exchange sends, together with the
configured cloud instance id. -/
theorem claimC6_create_direct_mapping :
    (∀ c : PolicyConfig,
      (buildCreateBody c).dhGroup = c.dhGroup ∧
      (buildCreateBody c).encryption = c.encryption ∧
      (buildCreateBody c).keyLifetime = c.keyLifetime ∧
      (buildCreateBody c).name = c.name ∧
      (buildCreateBody c).pfs = c.pfs) ∧
    (∀ (R : Remote) (m : ProviderMeta) (d : ResourceData),
      m.ibmPISession = Except.ok () →
      ∃ rest, (resourceIBMPIIPSecPolicyCreate R m d).trace =
        ApiCall.createCall (buildCreateBody d.conf) d.cloudInstanceID :: rest) := by
  constructor
  · exact buildCreateBody_fields
  · intro R m d hs
    cases hc : R.create (buildCreateBody d.conf) d.cloudInstanceID with
    | error e => exact ⟨[], by rw [create_op_err R m d e hs hc]⟩
    | ok p => exact ⟨_, by rw [create_op_ok R m d p hs hc]⟩

theorem claimC6_witness :
    okMeta.ibmPISession = Except.ok () ∧
    (buildCreateBody sampleConf).dhGroup = sampleConf.dhGroup ∧
    (∃ rest, (resourceIBMPIIPSecPolicyCreate remoteOkAll okMeta sampleData).trace =
      ApiCall.createCall (buildCreateBody sampleData.conf) sampleData.cloudInstanceID :: rest) :=
  ⟨rfl, (claimC6_create_direct_mapping.1 sampleConf).1,
    claimC6_create_direct_mapping.2 remoteOkAll okMeta sampleData rfl⟩

/-- C7: each entry point is a pure function of the resource data, the
session outcome, and the remote responses it actually requests: any two
remote oracles that agree on every exchange recorded in the trace produce
identical diagnostics, identical resulting state, and an identical trace. -/
theorem claimC7_stateless_deterministic :
    (∀ (R1 R2 : Remote) (m : ProviderMeta) (d : ResourceData),
      (∀ c ∈ (resourceIBMPIIPSecPolicyCreate R1 m d).trace, agreeOn R1 R2 c) →
      resourceIBMPIIPSecPolicyCreate R2 m d = resourceIBMPIIPSecPolicyCreate R1 m d) ∧
    (∀ (R1 R2 : Remote) (m : ProviderMeta) (d : ResourceData),
      (∀ c ∈ (resourceIBMPIIPSecPolicyRead R1 m d).trace, agreeOn R1 R2 c) →
      resourceIBMPIIPSecPolicyRead R2 m d = resourceIBMPIIPSecPolicyRead R1 m d) ∧
    (∀ (R1 R2 : Remote) (m : ProviderMeta) (d : ResourceData),
      (∀ c ∈ (resourceIBMPIIPSecPolicyUpdate R1 m d).trace, agreeOn R1 R2 c) →
      resourceIBMPIIPSecPolicyUpdate R2 m d = resourceIBMPIIPSecPolicyUpdate R1 m d) ∧
    (∀ (R1 R2 : Remote) (m : ProviderMeta) (d : ResourceData),
      (∀ c ∈ (resourceIBMPIIPSecPolicyDelete R1 m d).trace, agreeOn R1 R2 c) →
      resourceIBMPIIPSecPolicyDelete R2 m d = resourceIBMPIIPSecPolicyDelete R1 m d) :=
  ⟨create_agree, read_agree, update_agree, delete_agree⟩

theorem claimC7_witness :
    (∀ c ∈ (resourceIBMPIIPSecPolicyRead remoteOkAll okMeta sampleData).trace,
      agreeOn remoteOkAll remoteAlt c) ∧
    resourceIBMPIIPSecPolicyRead remoteAlt okMeta sampleData =
      resourceIBMPIIPSecPolicyRead remoteOkAll okMeta sampleData := by
  have hyp : ∀ c ∈ (resourceIBMPIIPSecPolicyRead remoteOkAll okMeta sampleData).trace,
      agreeOn remoteOkAll remoteAlt c := by
    intro c hc
    have ht : (resourceIBMPIIPSecPolicyRead remoteOkAll okMeta sampleData).trace =
        [ApiCall.getCall "pid-1" "cid-1"] := rfl
    rw [ht, List.mem_singleton] at hc
    subst hc
    show remoteOkAll.get "pid-1" "cid-1" = remoteAlt.get "pid-1" "cid-1"
    rfl
  exact ⟨hyp, claimC7_stateless_deterministic.2.1 remoteOkAll remoteAlt okMeta sampleData hyp⟩

/-- C8: Delete clears the stored identifier exactly when the remote delete
call succeeds; on a session, parsing, or remote error — a not-found error
included, since every remote error is treated alike — it returns a
non-empty diagnostic wrapping the error and leaves the resource data, its
identifier included, unchanged. -/
theorem claimC8_delete_atomicity :
    (∀ (R : Remote) (m : ProviderMeta) (d : ResourceData) (e : String),
      m.ibmPISession = Except.error e →
      resourceIBMPIIPSecPolicyDelete R m d = ⟨[Diagnostic.fromErr e], d, []⟩) ∧
    (∀ (R : Remote) (m : ProviderMeta) (d : ResourceData) (e : String),
      m.ibmPISession = Except.ok () → idParts d.rid = Except.error e →
      resourceIBMPIIPSecPolicyDelete R m d = ⟨[Diagnostic.fromErr e], d, []⟩) ∧
    (∀ (R : Remote) (m : ProviderMeta) (d : ResourceData) (parts : List String) (e : String),
      m.ibmPISession = Except.ok () → idParts d.rid = Except.ok parts →
      R.delete (parts.getD 1 "") (parts.getD 0 "") = Except.error e →
      (resourceIBMPIIPSecPolicyDelete R m d).d = d ∧
      (resourceIBMPIIPSecPolicyDelete R m d).diags ≠ [] ∧
      ∃ dg ∈ (resourceIBMPIIPSecPolicyDelete R m d).diags, dg.wrapsErr e) ∧
    (∀ (R : Remote) (m : ProviderMeta) (d : ResourceData) (parts : List String),
      m.ibmPISession = Except.ok () → idParts d.rid = Except.ok parts →
      R.delete (parts.getD 1 "") (parts.getD 0 "") = Except.ok () →
      (resourceIBMPIIPSecPolicyDelete R m d).d.rid = "" ∧
      (resourceIBMPIIPSecPolicyDelete R m d).diags = []) ∧
    (∀ (R : Remote) (m : ProviderMeta) (d : ResourceData),
      d.rid ≠ "" →
      ((resourceIBMPIIPSecPolicyDelete R m d).d.rid = "" ↔
        (m.ibmPISession = Except.ok () ∧
         ∃ parts, idParts d.rid = Except.ok parts ∧
           R.delete (parts.getD 1 "") (parts.getD 0 "") = Except.ok ()))) := by
  refine ⟨?_, ?_, ?_, ?_, ?_⟩
  · intro R m d e hs
    exact delete_session_err R m d e hs
  · intro R m d e hs hp
    exact delete_parts_err R m d e hs hp
  · intro R m d parts e hs hp hdel
    rw [delete_op_err R m d parts e hs hp hdel]
    exact ⟨rfl, by simp, _, List.mem_singleton.mpr rfl, by simp [Diagnostic.wrapsErr]⟩
  · intro R m d parts hs hp hdel
    rw [delete_op_ok R m d parts hs hp hdel]
    exact ⟨rfl, rfl⟩
  · intro R m d hrid
    constructor
    · intro hcleared
      cases hs : m.ibmPISession with
      | error e =>
        rw [delete_session_err R m d e hs] at hcleared
        exact absurd hcleared hrid
      | ok u =>
        cases u
        cases hp : idParts d.rid with
        | error e =>
          rw [delete_parts_err R m d e hs hp] at hcleared
          exact absurd hcleared hrid
        | ok parts =>
          cases hdel : R.delete (parts.getD 1 "") (parts.getD 0 "") with
          | error e =>
            rw [delete_op_err R m d parts e hs hp hdel] at hcleared
            exact absurd hcleared hrid
          | ok u =>
            cases u
            exact ⟨rfl, parts, rfl, hdel⟩
    · rintro ⟨hs, parts, hp, hdel⟩
      rw [delete_op_ok R m d parts hs hp hdel]

theorem claimC8_witness :
    okMeta.ibmPISession = Except.ok () ∧
    idParts sampleData.rid = Except.ok ["cid-1", "pid-1"] ∧
    remoteErrAll.delete "pid-1" "cid-1" = Except.error "boom" ∧
    ((resourceIBMPIIPSecPolicyDelete remoteErrAll okMeta sampleData).d = sampleData ∧
     (resourceIBMPIIPSecPolicyDelete remoteErrAll okMeta sampleData).diags ≠ [] ∧
     ∃ dg ∈ (resourceIBMPIIPSecPolicyDelete remoteErrAll okMeta sampleData).diags,
       dg.wrapsErr "boom") :=
  ⟨rfl, rfl, rfl,
    claimC8_delete_atomicity.2.2.1 remoteErrAll okMeta sampleData ["cid-1", "pid-1"]
      "boom" rfl rfl rfl⟩

/-- C9: each of the six configurable attributes appears in the update body
exactly when it changed between the prior state and the current
configuration — an unchanged attribute stays at its Go zero value, an
all-unchanged configuration yields the empty body — and once the guards
succeed that body is what the update exchange sends. -/
theorem claimC9_update_sends_only_changed :
    (∀ old new : PolicyConfig,
      (buildUpdateBody old new).name = (if old.name = new.name then "" else new.name) ∧
      (buildUpdateBody old new).dhGroup =
        (if old.dhGroup = new.dhGroup then 0 else new.dhGroup) ∧
      (buildUpdateBody old new).encryption =
        (if old.encryption = new.encryption then "" else new.encryption) ∧
      (buildUpdateBody old new).keyLifetime =
        (if old.keyLifetime = new.keyLifetime then 0 else new.keyLifetime) ∧
      (buildUpdateBody old new).pfs =
        (if old.pfs = new.pfs then Option.none else Option.some new.pfs) ∧
      (buildUpdateBody old new).authentication =
        (if old.authentication = new.authentication then "" else new.authentication)) ∧
    (∀ c : PolicyConfig, buildUpdateBody c c = emptyIPSecPolicyUpdate) ∧
    (∀ (R : Remote) (m : ProviderMeta) (d : ResourceData) (parts : List String),
      m.ibmPISession = Except.ok () → idParts d.rid = Except.ok parts →
      ∃ rest, (resourceIBMPIIPSecPolicyUpdate R m d).trace =
        ApiCall.updateCall (buildUpdateBody d.oldConf d.conf)
          (parts.getD 1 "") (parts.getD 0 "") :: rest) := by
  refine ⟨?_, ?_, ?_⟩
  · intro old new
    rw [buildUpdateBody_eq]
    exact ⟨rfl, rfl, rfl, rfl, rfl, rfl⟩
  · intro c
    rw [buildUpdateBody_eq]
    simp [emptyIPSecPolicyUpdate]
  · intro R m d parts hs hp
    cases hu : R.update (buildUpdateBody d.oldConf d.conf) (parts.getD 1 "") (parts.getD 0 "") with
    | error e => exact ⟨[], by rw [update_op_err R m d parts e hs hp hu]⟩
    | ok p => exact ⟨_, by rw [update_op_ok R m d parts p hs hp hu]⟩

theorem claimC9_witness :
    okMeta.ibmPISession = Except.ok () ∧
    idParts sampleDataChanged.rid = Except.ok ["cid-1", "pid-1"] ∧
    buildUpdateBody sampleConf sampleConf = emptyIPSecPolicyUpdate ∧
    (∃ rest, (resourceIBMPIIPSecPolicyUpdate remoteOkAll okMeta sampleDataChanged).trace =
      ApiCall.updateCall (buildUpdateBody sampleDataChanged.oldConf sampleDataChanged.conf)
        "pid-1" "cid-1" :: rest) :=
  ⟨rfl, rfl, claimC9_update_sends_only_changed.2.1 sampleConf,
    claimC9_update_sends_only_changed.2.2 remoteOkAll okMeta sampleDataChanged
      ["cid-1", "pid-1"] rfl rfl⟩

/-- C10: the schema accepts a configuration exactly when the DH group is
one of {1, 2, 5, 14, 19, 20, 24}, the key lifetime lies in 180..86400, the
encryption is one of the seven allowed ciphers, and the authentication —
defaulted to `"none"` when omitted — is one of the four allowed values;
the authentication attribute's registered schema default is `"none"`. -/
theorem claimC10_schema_validation :
    (∀ (cid nm : String) (dh : Int) (enc : String) (klt : Int) (pfs : Bool)
        (auth : Option String),
      schemaAcceptsConfig cid nm dh enc klt pfs auth = true ↔
        (dh ∈ ([1, 2, 5, 14, 19, 20, 24] : List Int) ∧
         enc ∈ (["3des-cbc", "aes-128-cbc", "aes-128-gcm", "aes-192-cbc", "aes-256-cbc",
           "aes-256-gcm", "des-cbc"] : List String) ∧
         ((180 : Int) ≤ klt ∧ klt ≤ 86400) ∧
         auth.getD "none" ∈
           (["hmac-md5-96", "hmac-sha-256-128", "hmac-sha1-96", "none"] : List String))) ∧
    authenticationAttr.defaultVal = Option.some (AttrVal.str "none") ∧
    resourceIBMPIIPSecPolicy.schema = ipsecPolicySchema := by
  refine ⟨?_, rfl, rfl⟩
  intro cid nm dh enc klt pfs auth
  simp [schemaAcceptsConfig, cloudInstanceIdAttr, policyNameAttr, dhGroupAttr,
    encryptionAttr, keyLifetimeAttr, pfsAttr, authenticationAttr,
    validateAllowedIntValue, validateAllowedStringValue, validateAllowedRangeInt,
    allowedDhGroups, allowedEncryptions, allowedAuthentications, and_assoc]

theorem claimC10_witness :
    schemaAcceptsConfig "cid-1" "vpn-name" 2 "aes-128-cbc" 3600 true Option.none = true :=
  (claimC10_schema_validation.1 "cid-1" "vpn-name" 2 "aes-128-cbc" 3600 true
    Option.none).mpr (by decide)

end IPSec
